import Mathlib

/-!
A verification development for the object protocol layer of RustPython
(`vm/src/protocol/object.rs`): attribute resolution, rich comparison,
type-relationship queries, item access and hash dispatch.

Objects are shallowly embedded as natural-number identities; the class
metadata provider, instance storage provider and hook slots consumed by the
protocol layer are parameters of explicit "world" structures.  Each engine
function below is a direct translation of the corresponding Rust function;
collaborator code that lives outside `vm/src/protocol/object.rs` (the
recursion guard `vm.with_recursion`, the comparison-operator swap table, the
MRO class-attribute lookup) is modelled from the specification and marked as
such in its doc comment.
-/

/-- Comparison operator tokens, `PyComparisonOp` in the Rust sources. -/
inductive CmpOp where
  | lt | le | eq | ne | gt | ge
  deriving DecidableEq, Repr

/-- Modelled from the spec: the fixed swap mapping used to build the
reflected form of a comparison (LT↔GT, LE↔GE, EQ↔EQ, NE↔NE).  The
implementation (`PyComparisonOp::swapped`) lives in the slot module, outside
this repository snapshot's sources. -/
def CmpOp.swapped : CmpOp → CmpOp
  | .lt => .gt
  | .le => .ge
  | .eq => .eq
  | .ne => .ne
  | .gt => .lt
  | .ge => .le

/-- The typed errors produced by the protocol layer.  Each constructor
stands for one exception shape built in the Rust sources:
`attributeMissing` is an exact `AttributeError`; `typeError` is a
`TypeError` with the given message; `unhashable` is the
`TypeError("unhashable type: ...")` built by `hash`; `unorderable` is the
`TypeError` built by `new_unsupported_bin_op_error`, carrying both class
identities and the operator; `notSubscriptable` is the `TypeError` built at
the end of `get_item`; `recursionExceeded` is the `RecursionError` raised by
the depth guard; `fuelExhausted` is an artifact of the embedding (the fuel
bound of the Lean interpreter, with no Rust counterpart); `otherError`
stands for an exception of any class other than `AttributeError`. -/
inductive Exc where
  | attributeMissing (obj : Nat) (name : String)
  | typeError (msg : String)
  | unhashable (clsName : String)
  | unorderable (lhsCls rhsCls : Nat) (op : CmpOp)
  | notSubscriptable (clsName : String)
  | recursionExceeded
  | fuelExhausted
  | otherError (tag : Nat)
  deriving DecidableEq, Repr

/-- The check `e.class().is(vm.ctx.exceptions.attribute_error)` performed by
`check_cls`: in this embedding exactly the `attributeMissing` constructor
carries the `AttributeError` class. -/
def Exc.isAttributeError : Exc → Bool
  | .attributeMissing .. => true
  | _ => false

/-- The reentrancy guard.  Modelled from the spec: a mutable depth counter
scoped to one execution context, incremented on entry to a re-entrant
protocol call and decremented on every exit path; entering when `depth` has
reached `limit` fails the in-flight call with `recursionExceeded`
(`vm.with_recursion` in the Rust sources, which live outside this
repository snapshot's sources). -/
structure Guard where
  depth : Nat
  limit : Nat
  deriving DecidableEq, Repr

/-- One invocation of a class comparison hook: the receiver, the other
operand, and the operator the hook was invoked with. -/
structure HookInv where
  obj : Nat
  other : Nat
  op : CmpOp
  deriving DecidableEq, Repr

/-- `PyArithmeticValue<bool>`: a hook either handles the comparison and
returns a boolean, or signals the not-implemented sentinel. -/
inductive Arith where
  | notImpl
  | impl (b : Bool)
  deriving DecidableEq, Repr

/-- Defunctionalised behavior of a class's resolved `richcompare` slot
(the result of `obj.class().mro_find_map(|cls| cls.slots.richcompare.load())`,
which is always present, hence total).  `notImpl` returns the
not-implemented sentinel, `ret` returns a primitive boolean (the
`Either::B` result path; object-valued `Either::A` results are elided, so
the `PyArithmeticValue::from_object` test on them collapses into `notImpl`
versus `ret`), `raise` fails with the given exception, and `recurse`
unconditionally re-invokes comparison on the same operands and operator. -/
inductive HookBeh where
  | notImpl
  | ret (b : Bool)
  | raise (e : Exc)
  | recurse
  deriving DecidableEq, Repr

/-- The collaborators consumed by the comparison engine: every object's
class, the `fast_issubclass` relation on classes, and each class's resolved
comparison hook. -/
structure CmpWorld where
  classOf : Nat → Nat
  fastIssub : Nat → Nat → Bool
  hook : Nat → HookBeh

/-- Output of one comparison-hook attempt: the `PyArithmeticValue` result or
an error, the guard state after the attempt, and the hook invocations it
performed in order. -/
structure ArithOut where
  res : Except Exc Arith
  guard : Guard
  trace : List HookInv

/-- Output of `_cmp`: the boolean result or an error, the final guard state,
and every hook invocation performed, in order. -/
structure CmpOut where
  res : Except Exc Bool
  guard : Guard
  trace : List HookInv

/-- Modelled from the spec: `vm.with_recursion` around a hook attempt.
If the depth budget is already exhausted the body is never entered and the
call fails with `recursionExceeded`; otherwise the body runs at depth+1 and
the counter is restored on every exit path, error included. -/
def withRecursionA (g : Guard) (body : Guard → ArithOut) : ArithOut :=
  if g.limit ≤ g.depth then ⟨.error .recursionExceeded, g, []⟩
  else
    let out := body ⟨g.depth + 1, g.limit⟩
    ⟨out.res, ⟨out.guard.depth - 1, out.guard.limit⟩, out.trace⟩

/-- The `call_cmp` closure of `_cmp`: resolve the receiver's comparison hook
(`mro_find_map(richcompare).unwrap()`, modelled as the total `hook` field)
and run it.  The `recurse` behavior is supplied by the caller so that the
interpreter below can tie the knot through its fuel parameter. -/
def callCmpWith (w : CmpWorld) (recurseCase : Nat → Nat → CmpOp → Guard → ArithOut)
    (obj other : Nat) (o : CmpOp) (g0 : Guard) : ArithOut :=
  match w.hook (w.classOf obj) with
  | .notImpl => ⟨.ok .notImpl, g0, [⟨obj, other, o⟩]⟩
  | .ret bv => ⟨.ok (.impl bv), g0, [⟨obj, other, o⟩]⟩
  | .raise e => ⟨.error e, g0, [⟨obj, other, o⟩]⟩
  | .recurse => recurseCase obj other o g0

/-- The final fallback of `_cmp` when every attempt yielded the
not-implemented sentinel: identity equality for EQ, its negation for NE, and
the unsupported-operand `TypeError` for the four order operators.  `a == b`
on object identities is `self.is(&other)`. -/
def cmpFallback (w : CmpWorld) (a b : Nat) (op : CmpOp) (g : Guard) (t : List HookInv) : CmpOut :=
  match op with
  | .eq => ⟨.ok (a == b), g, t⟩
  | .ne => ⟨.ok (!(a == b)), g, t⟩
  | _ => ⟨.error (.unorderable (w.classOf a) (w.classOf b) op), g, t⟩

/-- The body of `_cmp`, parameterised by the behavior of a recursive
re-entry (`recurseCase`).  The Rust `checked_reverse_op` flag is resolved
statically: it is `true` exactly on the strict-subclass branch, where the
final reflected retry is therefore skipped. -/
def cmpBody (w : CmpWorld) (recurseCase : Nat → Nat → CmpOp → Guard → ArithOut)
    (a b : Nat) (op : CmpOp) (g : Guard) : CmpOut :=
  let swapped := op.swapped
  let aCls := w.classOf a
  let bCls := w.classOf b
  let isStrictSubclass := (!(aCls == bCls)) && w.fastIssub bCls aCls
  if isStrictSubclass then
    let o1 := withRecursionA g (callCmpWith w recurseCase b a swapped)
    match o1.res with
    | .error e => ⟨.error e, o1.guard, o1.trace⟩
    | .ok (.impl x) => ⟨.ok x, o1.guard, o1.trace⟩
    | .ok .notImpl =>
      let o2 := withRecursionA o1.guard (callCmpWith w recurseCase a b op)
      match o2.res with
      | .error e => ⟨.error e, o2.guard, o1.trace ++ o2.trace⟩
      | .ok (.impl x) => ⟨.ok x, o2.guard, o1.trace ++ o2.trace⟩
      | .ok .notImpl => cmpFallback w a b op o2.guard (o1.trace ++ o2.trace)
  else
    let o2 := withRecursionA g (callCmpWith w recurseCase a b op)
    match o2.res with
    | .error e => ⟨.error e, o2.guard, o2.trace⟩
    | .ok (.impl x) => ⟨.ok x, o2.guard, o2.trace⟩
    | .ok .notImpl =>
      let o3 := withRecursionA o2.guard (callCmpWith w recurseCase b a swapped)
      match o3.res with
      | .error e => ⟨.error e, o3.guard, o2.trace ++ o3.trace⟩
      | .ok (.impl x) => ⟨.ok x, o3.guard, o2.trace ++ o3.trace⟩
      | .ok .notImpl => cmpFallback w a b op o3.guard (o2.trace ++ o3.trace)

/-- `PyObject::_cmp`, the rich comparison engine.  `fuel` bounds the depth
of hook-driven re-entry so the interpreter is total; a re-entering hook at
fuel 0 fails with the embedding-only `fuelExhausted` error, which is never
reached while the recursion guard's limit stays below the fuel. -/
def _cmp (w : CmpWorld) : Nat → Nat → Nat → CmpOp → Guard → CmpOut
  | 0 => cmpBody w (fun obj other o g0 => ⟨.error .fuelExhausted, g0, [⟨obj, other, o⟩]⟩)
  | fuel + 1 => cmpBody w (fun obj other o g0 =>
      let inner := _cmp w fuel obj other o g0
      ⟨inner.res.map .impl, inner.guard, ⟨obj, other, o⟩ :: inner.trace⟩)

/-- The collaborators consumed by the type-relationship engine's abstract
procedure: `getBases` is the result of `derived.get_attr(__bases__, vm)`
(the identity of the bases object, or an error), and `asTuple` is
`PyTupleRef::try_from_object` on that object (the list of base-class
identities, or an error). -/
structure SubWorld where
  getBases : Nat → Except Exc Nat
  asTuple : Nat → Except Exc (List Nat)

/-- Output of the bases-graph walk: a boolean or an error, plus the guard
state on exit. -/
structure SubOut where
  res : Except Exc Bool
  guard : Guard

/-- Modelled from the spec: `vm.with_recursion` around a bases-graph step,
same discipline as `withRecursionA`. -/
def withRecursionS (g : Guard) (body : Guard → SubOut) : SubOut :=
  if g.limit ≤ g.depth then ⟨.error .recursionExceeded, g⟩
  else
    let out := body ⟨g.depth + 1, g.limit⟩
    ⟨out.res, ⟨out.guard.depth - 1, out.guard.limit⟩⟩

/-- `PyObject::abstract_issubclass`, translated clause by clause.  The Rust
loop's one-base `continue` is rendered as a fuel-consuming tail call (the
Rust code would loop forever on a one-base cycle; the embedding fails with
`fuelExhausted` instead).  In the branch for `n` ≥ 2 bases the Rust code
runs `if let Some(i) = (0..n).next()`, which always yields index 0 only, so
exactly the first base is checked before `Ok(false)` is returned. -/
def abstract_issubclass (w : SubWorld) : Nat → Nat → Nat → Guard → SubOut
  | 0, _, _, g => ⟨.error .fuelExhausted, g⟩
  | fuel + 1, derived, cls, g =>
    if derived == cls then ⟨.ok true, g⟩
    else
      match w.getBases derived with
      | .error e => ⟨.error e, g⟩
      | .ok bases =>
        match w.asTuple bases with
        | .error e => ⟨.error e, g⟩
        | .ok tup =>
          match tup with
          | [] => ⟨.ok false, g⟩
          | [b] => abstract_issubclass w fuel b cls g
          | b0 :: _ :: _ =>
            let inner := withRecursionS g (fun g1 => abstract_issubclass w fuel b0 cls g1)
            match inner.res with
            | .error e => ⟨.error e, inner.guard⟩
            | .ok check => if check then ⟨.ok true, inner.guard⟩ else ⟨.ok false, inner.guard⟩

/-- Try a guarded subclass check on each base in order, stopping at the
first `true`; helper for the spec-described procedure below. -/
def tryBases (check : Nat → Guard → SubOut) : List Nat → Guard → SubOut
  | [], g => ⟨.ok false, g⟩
  | b :: rest, g =>
    let out := withRecursionS g (check b)
    match out.res with
    | .error e => ⟨.error e, out.guard⟩
    | .ok true => ⟨.ok true, out.guard⟩
    | .ok false => tryBases check rest out.guard

/-- Modelled from the spec: the bases-graph walk as the specification
states it — "0 bases → false; 1 base → continue into it; N bases → try each
in order, first true wins" — for comparison with `abstract_issubclass`
above, which drops every base after the first. -/
def spec_abstract_issubclass (w : SubWorld) : Nat → Nat → Nat → Guard → SubOut
  | 0, _, _, g => ⟨.error .fuelExhausted, g⟩
  | fuel + 1, derived, cls, g =>
    if derived == cls then ⟨.ok true, g⟩
    else
      match w.getBases derived with
      | .error e => ⟨.error e, g⟩
      | .ok bases =>
        match w.asTuple bases with
        | .error e => ⟨.error e, g⟩
        | .ok tup =>
          match tup with
          | [] => ⟨.ok false, g⟩
          | [b] => spec_abstract_issubclass w fuel b cls g
          | bs => tryBases (fun b g1 => spec_abstract_issubclass w fuel b cls g1) bs g

/-- `PyObject::check_cls`: probe the bases attribute of `cls`; an exact
`AttributeError` is masked into a `TypeError` carrying the caller-supplied
message, every other error propagates unchanged.  (The Rust `msg` closure is
a pure `String` here.) -/
def check_cls (w : SubWorld) (cls : Nat) (msg : String) : Except Exc Nat :=
  match w.getBases cls with
  | .error e => if e.isAttributeError then .error (.typeError msg) else .error e
  | .ok v => .ok v

/-- Signature of a resolved descriptor-get slot: descriptor, optional
instance, optional owner class. -/
def DGet : Type := Nat → Option Nat → Option Nat → Except Exc Nat

/-- The collaborators consumed by the attribute-resolution engine, hash
dispatch and `has_attr`: class of every object, per-class MRO, per-class
attribute tables, per-class descriptor and hash slots, optional instance
storage, the `None` singleton identity, class display names, and the result
of the full `get_attr` dispatch (the resolved `getattro` slot) used by
`has_attr`. -/
structure ObjWorld where
  classOf : Nat → Nat
  mro : Nat → List Nat
  classAttrs : Nat → String → Option Nat
  descrGetSlot : Nat → Option DGet
  descrSetSlot : Nat → Bool
  hashSlot : Nat → Option (Nat → Except Exc Int)
  dictOf : Nat → Option (List (String × Nat))
  noneId : Nat
  className : Nat → String
  getAttrRes : Nat → String → Except Exc Nat

/-- Modelled from the spec: class-level attribute lookup resolves to the
first ancestor in MRO order that defines the name (spec sections 3 and 4.1).
The implementation (`PyType::get_attr` / `PyObject::get_class_attr`) lives
outside this repository snapshot's sources. -/
def type_get_attr (w : ObjWorld) (cls : Nat) (name : String) : Option Nat :=
  (w.mro cls).findSome? (fun c => w.classAttrs c name)

/-- `descr_cls.mro_find_map(|cls| cls.slots.descr_get.load())`. -/
def mro_descr_get (w : ObjWorld) (cls : Nat) : Option DGet :=
  (w.mro cls).findSome? (fun c => w.descrGetSlot c)

/-- `descr_cls.mro_find_map(|cls| cls.slots.descr_set.load()).is_some()`. -/
def mro_has_descr_set (w : ObjWorld) (cls : Nat) : Bool :=
  (w.mro cls).any (fun c => w.descrSetSlot c)

/-- `self.class().mro_find_map(|cls| cls.slots.hash.load())`. -/
def mro_hash_slot (w : ObjWorld) (cls : Nat) : Option (Nat → Except Exc Int) :=
  (w.mro cls).findSome? (fun c => w.hashSlot c)

/-- `PyObject::generic_getattr_opt` (CPython
`_PyObject_GenericGetAttrWithDict`).  A class attribute whose class resolves
both a descriptor-get and a descriptor-set slot is a data descriptor: its
get hook is invoked immediately with (instance, owner class) and the result
returned, before instance storage is ever consulted.  Otherwise instance
storage (the explicit `dictArg` or the object's own dict, modelled as a pure
association-list lookup) wins over a non-data descriptor or plain class
attribute. -/
def generic_getattr_opt (w : ObjWorld) (obj : Nat) (name : String)
    (dictArg : Option (List (String × Nat))) : Except Exc (Option Nat) :=
  let objCls := w.classOf obj
  let step2 : Option (Nat × Option DGet) → Except Exc (Option Nat) := fun clsAttr =>
    let dict := match dictArg with
      | some d => some d
      | none => w.dictOf obj
    let attr := match dict with
      | some d => d.lookup name
      | none => none
    match attr with
    | some objAttr => .ok (some objAttr)
    | none =>
      match clsAttr with
      | some (attr, some dget) => (dget attr (some obj) (some objCls)).map some
      | some (attr, none) => .ok (some attr)
      | none => .ok none
  match type_get_attr w objCls name with
  | some descr =>
    let descrCls := w.classOf descr
    match mro_descr_get w descrCls with
    | some dget =>
      if mro_has_descr_set w descrCls then
        (dget descr (some obj) (some objCls)).map some
      else step2 (some (descr, some dget))
    | none => step2 (some (descr, none))
  | none => step2 none

/-- Outcome of `PyObject::hash`: the two `.unwrap()` calls in the Rust
source abort the process when their operand is `None`; `panicked` records
that abort, distinct from every typed error. -/
inductive HashOut where
  | panicked
  | ok (h : Int)
  | error (e : Exc)
  deriving DecidableEq, Repr

/-- Lift a hash slot's fallible result into `HashOut` (the Rust function
returns the slot's `PyResult` unchanged). -/
def liftHash : Except Exc Int → HashOut
  | .ok v => .ok v
  | .error e => .error e

/-- `PyObject::hash` (named `obj_hash` because `hash` is taken by Lean's
`Hashable`).  The class-level `__hash__` attribute is read and unwrapped;
the explicit `None` marker fails with the unhashable `TypeError` naming the
class; otherwise the hash slot is resolved via MRO, unwrapped, and invoked.
`PyHash` is the fixed-width signed integer type `i64`, modelled as `Int`
(the engine returns the slot's value unchanged, so no wraparound occurs in
this function). -/
def obj_hash (w : ObjWorld) (obj : Nat) : HashOut :=
  match type_get_attr w (w.classOf obj) "__hash__" with
  | none => .panicked
  | some h =>
    if h == w.noneId then .error (.unhashable (w.className (w.classOf obj)))
    else
      match mro_hash_slot w (w.classOf obj) with
      | none => .panicked
      | some f => liftHash (f obj)

/-- `PyObject::has_attr`: `self.get_attr(attr_name, vm).map(|o| !vm.is_none(&o))`.
Errors from the attribute lookup propagate; a successful lookup reports
whether the value is not the `None` singleton. -/
def has_attr (w : ObjWorld) (obj : Nat) (name : String) : Except Exc Bool :=
  (w.getAttrRes obj name).map (fun v => !(v == w.noneId))

/-- The collaborators consumed by the item-access engine.  `isExactDict` is
`downcast_ref_if_exact::<PyDict>` (the foundational mapping fast path) and
`dictGetItem` its direct lookup; `mapSub` is `PyMapping::try_protocol`
followed by `subscript` (`some` exactly when the mapping protocol is
implemented); `seqItem` is `PySequence::try_protocol` followed by `get_item`;
`keyAsIsize` is `needle.key_as_isize` (integer-index coercion, fallible);
`fastIssub`/`typeTypeId` drive `self.class().fast_issubclass(type_type)` and
`self.is(type_type)`; `genericAlias` builds the `PyGenericAlias` for
subscripting `type` itself; `classGetItem` is
`vm.get_attribute_opt(self, __class_getitem__)`. -/
structure ItemWorld where
  isExactDict : Nat → Bool
  dictGetItem : Nat → Nat → Except Exc Nat
  mapSub : Nat → Option (Nat → Except Exc Nat)
  seqItem : Nat → Option (Int → Except Exc Nat)
  keyAsIsize : Nat → Except Exc Int
  classOf : Nat → Nat
  fastIssub : Nat → Nat → Bool
  typeTypeId : Nat
  genericAlias : Nat → Nat → Nat
  classGetItem : Nat → Except Exc (Option (Nat → Except Exc Nat))
  className : Nat → String

/-- `PyObject::get_item`: foundational-dict fast path, then the mapping
protocol, then the sequence protocol with the key coerced to an integer
index, then the class-subscription special case for class objects, and
otherwise the not-subscriptable `TypeError` naming the object's class. -/
def get_item (w : ItemWorld) (o k : Nat) : Except Exc Nat :=
  if w.isExactDict o then w.dictGetItem o k
  else
    match w.mapSub o with
    | some sub => sub k
    | none =>
      match w.seqItem o with
      | some item =>
        match w.keyAsIsize k with
        | .error e => .error e
        | .ok i => item i
      | none =>
        if w.fastIssub (w.classOf o) w.typeTypeId then
          if o == w.typeTypeId then .ok (w.genericAlias (w.classOf o) k)
          else
            match w.classGetItem o with
            | .error e => .error e
            | .ok (some f) => f k
            | .ok none => .error (.notSubscriptable (w.className (w.classOf o)))
        else .error (.notSubscriptable (w.className (w.classOf o)))

/-- A concrete bases graph: object 0 has bases `(2, 1)` (tuple object 10),
object 2 has no bases (tuple object 11), object 1 has no bases (tuple
object 12); object 3 has no usable bases attribute (`AttributeError`) and
object 4 fails with an unrelated error. -/
def wSub : SubWorld where
  getBases := fun o =>
    if o == 0 then .ok 10
    else if o == 2 then .ok 11
    else if o == 1 then .ok 12
    else if o == 3 then .error (.attributeMissing 3 "__bases__")
    else .error (.otherError 7)
  asTuple := fun t =>
    if t == 10 then .ok [2, 1]
    else if t == 11 then .ok []
    else if t == 12 then .ok []
    else .error (.typeError "not a tuple")

/-- A concrete comparison world: object 0 has class 10, object 1 has class
11, class 11 is a strict subclass of class 10, and every resolved
comparison hook returns the not-implemented sentinel. -/
def wCmp : CmpWorld where
  classOf := fun o => 10 + o
  fastIssub := fun x y => x == 11 && y == 10
  hook := fun _ => .notImpl

/-- A concrete comparison world whose single class's comparison hook
unconditionally re-invokes comparison. -/
def wRec : CmpWorld where
  classOf := fun _ => 0
  fastIssub := fun _ _ => false
  hook := fun _ => .recurse

/-- Concrete descriptor-get hook used by the attribute witness world. -/
def dgetA : DGet := fun _ _ _ => .ok 42

/-- A concrete attribute world: instance 0 of class 10; class 10 defines
`"n"` as object 5 of class 20, and class 20 resolves both descriptor slots,
so object 5 is a data descriptor; instance 0 also stores `"n"` directly in
its dict (as 99). -/
def wAttr : ObjWorld where
  classOf := fun o => if o == 0 then 10 else if o == 5 then 20 else 0
  mro := fun c => if c == 10 then [10] else if c == 20 then [20] else []
  classAttrs := fun c n => if c == 10 && n == "n" then some 5 else none
  descrGetSlot := fun c => if c == 20 then some dgetA else none
  descrSetSlot := fun c => c == 20
  hashSlot := fun _ => none
  dictOf := fun o => if o == 0 then some [("n", 99)] else none
  noneId := 3
  className := fun c => "C" ++ toString c
  getAttrRes := fun _ _ => .error (.otherError 0)

/-- Concrete hash hook used by the hash witness world. -/
def hashF : Nat → Except Exc Int := fun _ => .ok 77

/-- A concrete hash world: object 0's class 10 marks itself unhashable
(its `__hash__` class attribute is the `None` singleton, identity 3);
object 1's class 11 defines `__hash__` as object 6 and resolves a hash
slot; object 2's class 12 resolves no `__hash__` class attribute at all;
object 4's class 13 resolves a non-`None` `__hash__` attribute (object 8)
but no hash slot. -/
def wHash : ObjWorld where
  classOf := fun o =>
    if o == 0 then 10 else if o == 1 then 11
    else if o == 2 then 12 else if o == 4 then 13 else 0
  mro := fun c => [c]
  classAttrs := fun c n =>
    if n == "__hash__" then
      if c == 10 then some 3
      else if c == 11 then some 6
      else if c == 13 then some 8
      else none
    else none
  descrGetSlot := fun _ => none
  descrSetSlot := fun _ => false
  hashSlot := fun c => if c == 11 then some hashF else none
  dictOf := fun _ => none
  noneId := 3
  className := fun c => "C" ++ toString c
  getAttrRes := fun _ _ => .error (.otherError 0)

/-- A concrete world for `has_attr`: on object 0, attribute `"x"` resolves
to the `None` singleton (identity 3), `"y"` resolves to object 9, and
`"z"` fails with an `AttributeError`. -/
def wHA : ObjWorld where
  classOf := fun _ => 0
  mro := fun _ => []
  classAttrs := fun _ _ => none
  descrGetSlot := fun _ => none
  descrSetSlot := fun _ => false
  hashSlot := fun _ => none
  dictOf := fun _ => none
  noneId := 3
  className := fun c => "C" ++ toString c
  getAttrRes := fun o n =>
    if o == 0 && n == "x" then .ok 3
    else if o == 0 && n == "y" then .ok 9
    else .error (.attributeMissing 0 "z")

/-- Concrete item hooks used by the item witness world. -/
def mapF : Nat → Except Exc Nat := fun k => .ok (100 + k)

def seqF : Int → Except Exc Nat := fun i => .ok (200 + i.toNat)

def cgiF : Nat → Except Exc Nat := fun k => .ok (300 + k)

/-- A concrete item world: object 0 implements both the mapping and the
sequence protocol; object 1 implements only the sequence protocol; object
2 is a class (class 30 is a subclass of the type type, identity 7)
publishing a `__class_getitem__` hook; object 3 implements neither protocol
and is not a class.  Key 999 is not convertible to an integer index. -/
def wItem : ItemWorld where
  isExactDict := fun _ => false
  dictGetItem := fun _ _ => .error (.otherError 0)
  mapSub := fun o => if o == 0 then some mapF else none
  seqItem := fun o => if o == 0 || o == 1 then some seqF else none
  keyAsIsize := fun k =>
    if k == 999 then .error (.typeError "key is not an integer index")
    else .ok (k : Int)
  classOf := fun o => if o == 2 then 30 else 40
  fastIssub := fun x y => x == 30 && y == 7
  typeTypeId := 7
  genericAlias := fun c k => 1000 + c + k
  classGetItem := fun o => if o == 2 then .ok (some cgiF) else .ok none
  className := fun c => "C" ++ toString c

lemma cmpFallback_trace (w : CmpWorld) (a b : Nat) (op : CmpOp) (g : Guard) (t : List HookInv) :
    (cmpFallback w a b op g t).trace = t := by
  cases op <;> rfl

lemma cmpFallback_guard (w : CmpWorld) (a b : Nat) (op : CmpOp) (g : Guard) (t : List HookInv) :
    (cmpFallback w a b op g t).guard = g := by
  cases op <;> rfl

lemma liftHash_ne_panicked (r : Except Exc Int) : liftHash r ≠ .panicked := by
  cases r <;> simp [liftHash]

/-- C1: the claim states that with N ≥ 2 bases each base is tried in order
and a match through the second or later base is found.  On the code this
fails: `abstract_issubclass` only ever tries the first base (its
`(0..n).next()` always yields index 0), so for object 0 with bases `(2, 1)`
the query "is 0 a subclass of 1" returns `false` even though the second
base is 1 itself, while the procedure described by the spec returns
`true`. -/
theorem abstract_issubclass_drops_later_bases :
    (abstract_issubclass wSub 10 0 1 ⟨0, 64⟩).res = .ok false ∧
    (spec_abstract_issubclass wSub 10 0 1 ⟨0, 64⟩).res = .ok true :=
  ⟨rfl, rfl⟩

/-- C6: in the type-relationship engine's bases-attribute probe
(`check_cls`), exactly one error kind is masked: an `AttributeError` from
reading the bases attribute becomes the caller's "not a class" `TypeError`;
an error of any other kind propagates unchanged. -/
theorem check_cls_masks_only_attribute_error (w : SubWorld) (cls : Nat) (msg : String)
    (e : Exc) (hErr : w.getBases cls = .error e) :
    (e.isAttributeError = true → check_cls w cls msg = .error (.typeError msg)) ∧
    (e.isAttributeError = false → check_cls w cls msg = .error e) := by
  constructor <;> intro h <;> simp [check_cls, hErr, h]

theorem check_cls_masks_only_attribute_error_witness :
    check_cls wSub 3 "issubclass() arg 1 must be a class, not C3" =
      .error (.typeError "issubclass() arg 1 must be a class, not C3") ∧
    check_cls wSub 4 "issubclass() arg 1 must be a class, not C4" =
      .error (.otherError 7) :=
  ⟨(check_cls_masks_only_attribute_error wSub 3 _ (.attributeMissing 3 "__bases__") rfl).1 rfl,
   (check_cls_masks_only_attribute_error wSub 4 _ (.otherError 7) rfl).2 rfl⟩

/-- C4: if the first ancestor in the instance's class MRO defining the name
holds a data descriptor (its class resolves both a descriptor-get and a
descriptor-set slot), `generic_getattr_opt` invokes that descriptor's get
hook with the instance and the instance's class and returns its result —
for every content of the instance storage, so a value stored under the same
name is never returned. -/
theorem generic_getattr_data_descriptor_precedence (w : ObjWorld) (i : Nat) (n : String)
    (d : Nat) (f : DGet) (dictArg : Option (List (String × Nat)))
    (hAttr : type_get_attr w (w.classOf i) n = some d)
    (hGet : mro_descr_get w (w.classOf d) = some f)
    (hSet : mro_has_descr_set w (w.classOf d) = true) :
    generic_getattr_opt w i n dictArg = (f d (some i) (some (w.classOf i))).map some := by
  simp [generic_getattr_opt, hAttr, hGet, hSet]

theorem generic_getattr_data_descriptor_precedence_witness :
    generic_getattr_opt wAttr 0 "n" none = .ok (some 42) :=
  generic_getattr_data_descriptor_precedence wAttr 0 "n" 5 dgetA none rfl rfl rfl

/-- C7: if the class-level `__hash__` attribute resolved through the MRO is
the explicit `None` marker, `obj_hash` fails with the unhashable error
naming the object's class; otherwise it resolves the hash slot via the MRO
(first definer wins, by the definition of `mro_hash_slot`), invokes it, and
returns its result. -/
theorem obj_hash_dispatch (w : ObjWorld) (o h : Nat)
    (hAttr : type_get_attr w (w.classOf o) "__hash__" = some h) :
    (h = w.noneId → obj_hash w o = .error (.unhashable (w.className (w.classOf o)))) ∧
    (h ≠ w.noneId → ∀ f, mro_hash_slot w (w.classOf o) = some f →
      obj_hash w o = liftHash (f o)) := by
  constructor
  · intro hn
    simp [obj_hash, hAttr, hn]
  · intro hn f hslot
    simp [obj_hash, hAttr, hslot, hn]

theorem obj_hash_dispatch_witness :
    obj_hash wHash 0 = .error (.unhashable (wHash.className 10)) ∧
    obj_hash wHash 1 = .ok 77 :=
  ⟨(obj_hash_dispatch wHash 0 3 rfl).1 rfl,
   (obj_hash_dispatch wHash 1 6 rfl).2 (by decide) hashF rfl⟩

/-- C10: `obj_hash` aborts (rather than returning a typed error) exactly
when the unconditional unwraps fail: either the object's class MRO resolves
no class-level `__hash__` attribute at all, or it resolves one that is not
the disabled marker while the MRO resolves no hash slot. -/
theorem obj_hash_panic_iff (w : ObjWorld) (o : Nat) :
    obj_hash w o = .panicked ↔
      (type_get_attr w (w.classOf o) "__hash__" = none ∨
       ∃ h, type_get_attr w (w.classOf o) "__hash__" = some h ∧ h ≠ w.noneId ∧
         mro_hash_slot w (w.classOf o) = none) := by
  cases hAttr : type_get_attr w (w.classOf o) "__hash__" with
  | none => simp [obj_hash, hAttr]
  | some h =>
    by_cases hn : h = w.noneId
    · subst hn
      simp [obj_hash, hAttr]
    · cases hslot : mro_hash_slot w (w.classOf o) with
      | none => simp [obj_hash, hAttr, hslot, hn]
      | some f => simp [obj_hash, hAttr, hslot, hn, liftHash_ne_panicked]

/-- C9: `has_attr` returns `false` exactly when the attribute lookup
succeeds with the `None` singleton; a lookup error — an `AttributeError`
for an absent attribute included — propagates instead of becoming `false`;
and a present attribute holding a value other than `None` yields `true`. -/
theorem has_attr_semantics (w : ObjWorld) (o : Nat) (n : String) :
    (has_attr w o n = .ok false ↔ w.getAttrRes o n = .ok w.noneId) ∧
    (∀ e, w.getAttrRes o n = .error e → has_attr w o n = .error e) ∧
    (∀ v, w.getAttrRes o n = .ok v → v ≠ w.noneId → has_attr w o n = .ok true) := by
  refine ⟨?_, ?_, ?_⟩
  · cases hga : w.getAttrRes o n with
    | error e => simp [has_attr, hga, Except.map]
    | ok v => simp [has_attr, hga, Except.map]
  · intro e hga
    simp [has_attr, hga, Except.map]
  · intro v hga hv
    simp [has_attr, hga, Except.map, hv]

theorem has_attr_semantics_witness :
    has_attr wHA 0 "x" = .ok false ∧
    has_attr wHA 0 "z" = .error (.attributeMissing 0 "z") ∧
    has_attr wHA 0 "y" = .ok true :=
  ⟨(has_attr_semantics wHA 0 "x").1.mpr rfl,
   (has_attr_semantics wHA 0 "z").2.1 _ rfl,
   (has_attr_semantics wHA 0 "y").2.2 9 rfl (by decide)⟩

/-- C5: on a non-foundational-mapping object, `get_item` uses the mapping
protocol whenever it is implemented (regardless of the sequence protocol);
only when the mapping protocol is absent does it use the sequence protocol
with the key coerced to an integer index (propagating a coercion failure);
when neither is implemented, a class publishing a `__class_getitem__` hook
is delegated to; and otherwise the call fails with the not-subscriptable
error naming the object's class. -/
theorem get_item_protocol_precedence (w : ItemWorld) (o k : Nat)
    (hdict : w.isExactDict o = false) :
    (∀ f, w.mapSub o = some f → get_item w o k = f k) ∧
    (∀ f i, w.mapSub o = none → w.seqItem o = some f → w.keyAsIsize k = .ok i →
      get_item w o k = f i) ∧
    (∀ f e, w.mapSub o = none → w.seqItem o = some f → w.keyAsIsize k = .error e →
      get_item w o k = .error e) ∧
    (∀ h, w.mapSub o = none → w.seqItem o = none →
      w.fastIssub (w.classOf o) w.typeTypeId = true → o ≠ w.typeTypeId →
      w.classGetItem o = .ok (some h) → get_item w o k = h k) ∧
    (w.mapSub o = none → w.seqItem o = none →
      (w.fastIssub (w.classOf o) w.typeTypeId = false ∨
        (o ≠ w.typeTypeId ∧ w.classGetItem o = .ok none)) →
      get_item w o k = .error (.notSubscriptable (w.className (w.classOf o)))) := by
  refine ⟨?_, ?_, ?_, ?_, ?_⟩
  · intro f hmap
    simp [get_item, hdict, hmap]
  · intro f i hmap hseq hkey
    simp [get_item, hdict, hmap, hseq, hkey]
  · intro f e hmap hseq hkey
    simp [get_item, hdict, hmap, hseq, hkey]
  · intro h hmap hseq hcls hne hcgi
    simp [get_item, hdict, hmap, hseq, hcls, hne, hcgi]
  · intro hmap hseq hrest
    rcases hrest with hcls | ⟨hne, hcgi⟩
    · simp [get_item, hdict, hmap, hseq, hcls]
    · simp [get_item, hdict, hmap, hseq, hne, hcgi]

theorem get_item_protocol_precedence_witness :
    get_item wItem 0 5 = .ok 105 ∧
    get_item wItem 1 5 = .ok 205 ∧
    get_item wItem 1 999 = .error (.typeError "key is not an integer index") ∧
    get_item wItem 2 5 = .ok 305 ∧
    get_item wItem 3 5 = .error (.notSubscriptable (wItem.className 40)) :=
  ⟨(get_item_protocol_precedence wItem 0 5 rfl).1 mapF rfl,
   (get_item_protocol_precedence wItem 1 5 rfl).2.1 seqF 5 rfl rfl rfl,
   (get_item_protocol_precedence wItem 1 999 rfl).2.2.1 seqF _ rfl rfl rfl,
   (get_item_protocol_precedence wItem 2 5 rfl).2.2.2.1 cgiF rfl rfl rfl (by decide) rfl,
   (get_item_protocol_precedence wItem 3 5 rfl).2.2.2.2 rfl rfl (.inl rfl)⟩

lemma cmpBody_reflected_first (w : CmpWorld) (rc : Nat → Nat → CmpOp → Guard → ArithOut)
    (a b : Nat) (op : CmpOp) (g : Guard)
    (hne : w.classOf a ≠ w.classOf b)
    (hsub : w.fastIssub (w.classOf b) (w.classOf a) = true)
    (ha : w.hook (w.classOf a) ≠ .recurse)
    (hb : w.hook (w.classOf b) ≠ .recurse)
    (hd : g.depth < g.limit) :
    (cmpBody w rc a b op g).trace.head? = some ⟨b, a, op.swapped⟩ ∧
    (cmpBody w rc a b op g).trace.count ⟨b, a, op.swapped⟩ ≤ 1 := by
  have hab : a ≠ b := fun h => hne (congrArg w.classOf h)
  have hbeq : (w.classOf a == w.classOf b) = false := beq_eq_false_iff_ne.mpr hne
  have hdep : ¬ g.limit ≤ g.depth := Nat.not_le.mpr hd
  rcases hhb : w.hook (w.classOf b) with _ | bv | e | _
  · rcases hha : w.hook (w.classOf a) with _ | av | e2 | _
    · simp [cmpBody, withRecursionA, callCmpWith, hbeq, hsub, hhb, hha, hdep,
        cmpFallback_trace, List.count_cons, HookInv.mk.injEq, hab]
    · simp [cmpBody, withRecursionA, callCmpWith, hbeq, hsub, hhb, hha, hdep,
        List.count_cons, HookInv.mk.injEq, hab]
    · simp [cmpBody, withRecursionA, callCmpWith, hbeq, hsub, hhb, hha, hdep,
        List.count_cons, HookInv.mk.injEq, hab]
    · exact absurd hha ha
  · simp [cmpBody, withRecursionA, callCmpWith, hbeq, hsub, hhb, hdep]
  · simp [cmpBody, withRecursionA, callCmpWith, hbeq, hsub, hhb, hdep]
  · exact absurd hhb hb

/-- C2: when the second operand's class is a strict, non-identical subclass
of the first operand's class (and neither resolved hook itself re-enters
comparison), the very first hook invocation `_cmp` performs is the second
operand's hook with the swapped operator — so it runs before the first
operand's hook with the original operator — and within the one call the
reflected invocation happens at most once. -/
theorem cmp_reflected_first_and_once (w : CmpWorld) (a b : Nat) (op : CmpOp)
    (fuel : Nat) (g : Guard)
    (hne : w.classOf a ≠ w.classOf b)
    (hsub : w.fastIssub (w.classOf b) (w.classOf a) = true)
    (ha : w.hook (w.classOf a) ≠ .recurse)
    (hb : w.hook (w.classOf b) ≠ .recurse)
    (hd : g.depth < g.limit) :
    (_cmp w fuel a b op g).trace.head? = some ⟨b, a, op.swapped⟩ ∧
    (_cmp w fuel a b op g).trace.count ⟨b, a, op.swapped⟩ ≤ 1 := by
  cases fuel with
  | zero => exact cmpBody_reflected_first w _ a b op g hne hsub ha hb hd
  | succ fuel => exact cmpBody_reflected_first w _ a b op g hne hsub ha hb hd

theorem cmp_reflected_first_and_once_witness :
    (_cmp wCmp 1 0 1 .lt ⟨0, 8⟩).trace.head? = some ⟨1, 0, CmpOp.lt.swapped⟩ ∧
    (_cmp wCmp 1 0 1 .lt ⟨0, 8⟩).trace.count ⟨1, 0, CmpOp.lt.swapped⟩ ≤ 1 :=
  cmp_reflected_first_and_once wCmp 0 1 .lt 1 ⟨0, 8⟩ (by decide) rfl
    (by decide) (by decide) (by decide)

lemma cmpBody_fallback (w : CmpWorld) (rc : Nat → Nat → CmpOp → Guard → ArithOut)
    (a b : Nat) (op : CmpOp) (g : Guard)
    (hna : w.hook (w.classOf a) = .notImpl)
    (hnb : w.hook (w.classOf b) = .notImpl)
    (hd : g.depth < g.limit) :
    (op = .eq → (cmpBody w rc a b op g).res = .ok (a == b)) ∧
    (op = .ne → (cmpBody w rc a b op g).res = .ok (!(a == b))) ∧
    (op ≠ .eq → op ≠ .ne → (cmpBody w rc a b op g).res =
      .error (.unorderable (w.classOf a) (w.classOf b) op)) := by
  have hdep : ¬ g.limit ≤ g.depth := Nat.not_le.mpr hd
  refine ⟨?_, ?_, ?_⟩
  · intro hop
    subst hop
    cases hs : (!(w.classOf a == w.classOf b)) && w.fastIssub (w.classOf b) (w.classOf a) <;>
      simp [cmpBody, withRecursionA, callCmpWith, hna, hnb, hdep, hs, cmpFallback]
  · intro hop
    subst hop
    cases hs : (!(w.classOf a == w.classOf b)) && w.fastIssub (w.classOf b) (w.classOf a) <;>
      simp [cmpBody, withRecursionA, callCmpWith, hna, hnb, hdep, hs, cmpFallback]
  · intro h1 h2
    cases op
    case eq => exact absurd rfl h1
    case ne => exact absurd rfl h2
    all_goals
      cases hs : (!(w.classOf a == w.classOf b)) && w.fastIssub (w.classOf b) (w.classOf a) <;>
        simp [cmpBody, withRecursionA, callCmpWith, hna, hnb, hdep, hs, cmpFallback]

/-- C3: when every hook attempt returns the not-implemented sentinel (both
resolved hooks are `notImpl`), `_cmp` falls back to identity equality for
EQ, its negation for NE, and fails with the unorderable error carrying both
classes and the operator for the four order operators. -/
theorem cmp_notimplemented_fallback (w : CmpWorld) (a b : Nat) (op : CmpOp)
    (fuel : Nat) (g : Guard)
    (hna : w.hook (w.classOf a) = .notImpl)
    (hnb : w.hook (w.classOf b) = .notImpl)
    (hd : g.depth < g.limit) :
    (op = .eq → (_cmp w fuel a b op g).res = .ok (a == b)) ∧
    (op = .ne → (_cmp w fuel a b op g).res = .ok (!(a == b))) ∧
    (op ≠ .eq → op ≠ .ne → (_cmp w fuel a b op g).res =
      .error (.unorderable (w.classOf a) (w.classOf b) op)) := by
  cases fuel with
  | zero => exact cmpBody_fallback w _ a b op g hna hnb hd
  | succ fuel => exact cmpBody_fallback w _ a b op g hna hnb hd

theorem cmp_notimplemented_fallback_witness :
    (_cmp wCmp 1 0 1 .eq ⟨0, 8⟩).res = .ok false ∧
    (_cmp wCmp 1 0 1 .ne ⟨0, 8⟩).res = .ok true ∧
    (_cmp wCmp 1 0 1 .lt ⟨0, 8⟩).res = .error (.unorderable 10 11 .lt) :=
  ⟨(cmp_notimplemented_fallback wCmp 0 1 .eq 1 ⟨0, 8⟩ rfl rfl (by decide)).1 rfl,
   (cmp_notimplemented_fallback wCmp 0 1 .ne 1 ⟨0, 8⟩ rfl rfl (by decide)).2.1 rfl,
   (cmp_notimplemented_fallback wCmp 0 1 .lt 1 ⟨0, 8⟩ rfl rfl (by decide)).2.2
     (by decide) (by decide)⟩

/-- C8: an object whose resolved comparison hook unconditionally re-invokes
comparison on itself makes `_cmp` fail with the guard's recursion-exceeded
error once the configured depth bound is reached (for any fuel beyond the
bound, so the failure comes from the guard, not the interpreter's fuel),
and the guard's counter is restored to its entry value, so only the
in-flight call fails. -/
theorem cmp_recursive_hook_bounded (w : CmpWorld) (o : Nat) (op : CmpOp)
    (fuel d L : Nat)
    (hk : w.hook (w.classOf o) = .recurse)
    (hdL : d ≤ L) (hfuel : L < d + fuel) :
    (_cmp w fuel o o op ⟨d, L⟩).res = .error .recursionExceeded ∧
    (_cmp w fuel o o op ⟨d, L⟩).guard = ⟨d, L⟩ := by
  induction fuel generalizing d with
  | zero => omega
  | succ fuel ih =>
    by_cases hL : L ≤ d
    · simp [_cmp, cmpBody, withRecursionA, hL]
    · obtain ⟨hres, hguard⟩ := ih (d + 1) (by omega) (by omega)
      simp [_cmp, cmpBody, withRecursionA, callCmpWith, hk, hL, hres, hguard, Except.map]

theorem cmp_recursive_hook_bounded_witness :
    (_cmp wRec 5 0 0 .eq ⟨0, 3⟩).res = .error .recursionExceeded ∧
    (_cmp wRec 5 0 0 .eq ⟨0, 3⟩).guard = ⟨0, 3⟩ :=
  cmp_recursive_hook_bounded wRec 0 .eq 5 0 3 rfl (by decide) (by decide)
